import Mathlib

/-!
Verification of `src/tools/multi_login.py` (repository eldoree4/hunt).

The script is a single linear pipeline: fetch a login page, locate the
first form, build a name-to-default-value mapping from its inputs, inject
the supplied credentials heuristically, submit the form, and classify the
result from the session cookies and the response body.

The embedding below follows the source line by line.  Python dictionaries
are modelled as insertion-ordered association lists whose keys are
`Option String` — the Python value `None` (which the fallback heuristic can
use as a dictionary key) is `none`, and a string key `s` is `some s`.
HTML attributes that may be absent are `Option String`.  The two network
calls and the session cookie jar are an explicit environment.
-/

set_option autoImplicit false

namespace MultiLogin

/-- An HTML `<input>` element, reduced to the three attributes the script
reads: `name`, `value` and `type` (each possibly absent). -/
structure Input where
  name : Option String
  value : Option String
  type : Option String
deriving DecidableEq, Repr

/-- An HTML `<form>` element: its `action` and `method` attributes and its
`<input>` descendants in document order (`form.find_all("input")`). -/
structure Form where
  action : Option String
  method : Option String
  inputs : List Input
deriving DecidableEq, Repr

/-- A parsed HTML page, reduced to its `<form>` elements in document order;
`soup.find("form")` is `forms.head?`. -/
structure Page where
  forms : List Form
deriving DecidableEq, Repr

/-- An HTTP response, reduced to the one field the script reads (`r.text`). -/
structure HttpResponse where
  text : String
deriving DecidableEq, Repr

/-- The command-line arguments: three positional arguments and the optional
`--action` override (default `None`). -/
structure Args where
  login_page : String
  username : String
  password : String
  action : Option String
deriving DecidableEq, Repr

/-- The environment a run observes: the outcome of the fetch `GET`
(a parsed page, or a transport error message), the outcome of the one
submission request, and the session cookie jar as read at the
classification step (`session.cookies.get_dict()`). -/
structure Env where
  fetch : Except String Page
  submit : Except String HttpResponse
  cookies : List (String × String)

/-- A submission request as issued at lines 95–98: a `POST` with the field
mapping as body data, or a `GET` with the field mapping as query params. -/
inductive Request where
  | post (url : String) (data : List (Option String × String))
  | get (url : String) (params : List (Option String × String))
deriving DecidableEq, Repr

/-- Everything observable about one run: the standard-output lines, the
standard-error lines, the exit code, and the submission requests issued. -/
structure Outcome where
  stdout : List String
  stderr : List String
  exitCode : Nat
  requests : List Request
deriving DecidableEq, Repr

/-- A Python dictionary with insertion order, as the script uses it. -/
abbrev Dict := List (Option String × String)

/-- Python `d[k] = v`: update the value in place if the key is present
(keeping its position), else append the new entry.  Keys of a Python
dictionary are unique, so replacing the first occurrence is exact. -/
def dictInsert : Dict → Option String → String → Dict
  | [], k, v => [(k, v)]
  | p :: d, k, v => if p.1 = k then (k, v) :: d else p :: dictInsert d k v

/-- Python `k in d`. -/
def dictHas : Dict → Option String → Bool
  | [], _ => false
  | p :: d, k => p.1 = k || dictHas d k

/-- Python `d[k]` as a total lookup: the value at key `k`, if present. -/
def dictGet : Dict → Option String → Option String
  | [], _ => none
  | p :: d, k => if p.1 = k then some p.2 else dictGet d k

/-- Lines 47–53: build the field mapping by iterating the form's inputs in
document order; an input whose `name` attribute is absent or empty is
skipped (`if not name: continue`), every other input maps its name to its
`value` attribute, the empty string when absent. -/
def buildInputs (form : Form) : Dict :=
  form.inputs.foldl
    (fun d inp =>
      match inp.name with
      | none => d
      | some n => if n = "" then d else dictInsert d (some n) (inp.value.getD ""))
    []

/-- Line 56. -/
def csrf_name_candidates : List String :=
  ["csrf", "csrf_token", "_csrf", "authenticity_token", "token"]

/-- Line 65. -/
def common_user_fields : List String :=
  ["username", "user", "email", "login"]

/-- Line 66. -/
def common_pass_fields : List String :=
  ["password", "pass", "pwd"]

/-- Lines 57–62: the first CSRF candidate name present as a key, else
`None`.  The result is assigned to `csrf_name` and never read again. -/
def detect_csrf (inputs : Dict) : Option String :=
  csrf_name_candidates.find? (fun k => dictHas inputs (some k))

/-- The `for … break / else` pattern of lines 67–78: overwrite the first
candidate present as a key with the supplied value; if none is present the
mapping is unchanged. -/
def injectFirst (inputs : Dict) (candidates : List String) (v : String) : Dict :=
  match candidates.find? (fun k => dictHas inputs (some k)) with
  | some k => dictInsert inputs (some k) v
  | none => inputs

/-- Lines 81–86: if no username candidate is a key, take the first input
whose `type` attribute is `"text"` and run `inputs[name] = args.username`
on its `name` attribute — which is the Python value `None` when the
attribute is absent. -/
def userFallback (form : Form) (inputs : Dict) (username : String) : Dict :=
  if common_user_fields.any (fun k => dictHas inputs (some k)) then inputs
  else
    match (form.inputs.filter (fun i => i.type = some "text")).head? with
    | some inp => dictInsert inputs inp.name username
    | none => inputs

/-- Lines 87–91: the symmetric fallback for the password, over inputs whose
`type` attribute is `"password"`. -/
def passFallback (form : Form) (inputs : Dict) (password : String) : Dict :=
  if common_pass_fields.any (fun k => dictHas inputs (some k)) then inputs
  else
    match (form.inputs.filter (fun i => i.type = some "password")).head? with
    | some inp => dictInsert inputs inp.name password
    | none => inputs

/-- Lines 47–91 composed in source order: build the mapping, run the two
named-candidate injection loops, then the two type-based fallbacks. -/
def buildPayload (form : Form) (username password : String) : Dict :=
  passFallback form
    (userFallback form
      (injectFirst (injectFirst (buildInputs form) common_user_fields username)
        common_pass_fields password)
      username)
    password

/-- Line 45: Python `args.action or form.get("action") or args.login_page`
— `or` takes the first *truthy* operand, so `None` and the empty string
both fall through. -/
def chooseAction (argsAction formAction : Option String) (loginPage : String) : String :=
  match argsAction with
  | some s =>
    if s = "" then
      match formAction with
      | some t => if t = "" then loginPage else t
      | none => loginPage
    else s
  | none =>
    match formAction with
    | some t => if t = "" then loginPage else t
    | none => loginPage

/-- Modelled from the spec wording of claim C9 (the precedence read as
presence, not truthiness): the explicit override when supplied, otherwise
the form's `action` attribute, otherwise the original page URL. -/
def chooseActionSpec (argsAction formAction : Option String) (loginPage : String) : String :=
  match argsAction with
  | some s => s
  | none =>
    match formAction with
    | some t => t
    | none => loginPage

/-- ASCII lower-casing of one character. -/
def lowerChar (c : Char) : Char :=
  if 'A' ≤ c ∧ c ≤ 'Z' then Char.ofNat (c.toNat + 32) else c

/-- Lower-casing of a string, as Python `str.lower` acts on the ASCII texts
the script compares. -/
def lowerStr (s : String) : String :=
  String.mk (s.data.map lowerChar)

/-- Whether `needle` leads `hay` (character lists compared position by
position). -/
def listLeadsWith : List Char → List Char → Bool
  | [], _ => true
  | _ :: _, [] => false
  | a :: as, b :: bs => a = b && listLeadsWith as bs

/-- Python `needle in hay` on strings: contiguous substring containment. -/
def strContains (hay needle : String) : Bool :=
  hay.data.tails.any (fun t => listLeadsWith needle.data t)

/-- Line 106: serialize the cookie jar as `key=value` pairs joined by
`"; "`. -/
def cookieStr (cookies : List (String × String)) : String :=
  String.intercalate "; " (cookies.map (fun p => p.1 ++ "=" ++ p.2))

/-- The whole run, lines 33–116: fetch (exit 2 on transport error), locate
the first form (exit 3 if none), choose action and method, build the
payload, issue the submission (exit 4 on transport error), then classify:
cookies present → print the cookie line and exit 0; else a body containing
`logout` or `dashboard` case-insensitively → print the empty cookie line
and exit 0; else print an error and exit 5. -/
def runProgram (args : Args) (env : Env) : Outcome :=
  match env.fetch with
  | Except.error e =>
    { stdout := [], stderr := ["ERROR: Failed to fetch login page: " ++ e],
      exitCode := 2, requests := [] }
  | Except.ok page =>
    match page.forms.head? with
    | none =>
      { stdout := [], stderr := ["ERROR: No form found on login page"],
        exitCode := 3, requests := [] }
    | some form =>
      let action := chooseAction args.action form.action args.login_page
      let method := lowerStr (form.method.getD "post")
      let inputs := buildInputs form
      let _csrf_name := detect_csrf inputs
      let payload := buildPayload form args.username args.password
      let req := if method = "post" then Request.post action payload
                 else Request.get action payload
      match env.submit with
      | Except.error e =>
        { stdout := [], stderr := ["ERROR: Login submission failed: " ++ e],
          exitCode := 4, requests := [req] }
      | Except.ok resp =>
        if env.cookies ≠ [] then
          { stdout := ["OK cookie=" ++ cookieStr env.cookies], stderr := [],
            exitCode := 0, requests := [req] }
        else if strContains (lowerStr resp.text) "logout"
             || strContains (lowerStr resp.text) "dashboard" then
          { stdout := ["OK cookie="], stderr := [], exitCode := 0, requests := [req] }
        else
          { stdout := [], stderr := ["ERROR: Login likely failed"],
            exitCode := 5, requests := [req] }

/-- The same run with the CSRF candidate scan of lines 55–62 removed, and
nothing else changed. -/
def runProgramNoCsrf (args : Args) (env : Env) : Outcome :=
  match env.fetch with
  | Except.error e =>
    { stdout := [], stderr := ["ERROR: Failed to fetch login page: " ++ e],
      exitCode := 2, requests := [] }
  | Except.ok page =>
    match page.forms.head? with
    | none =>
      { stdout := [], stderr := ["ERROR: No form found on login page"],
        exitCode := 3, requests := [] }
    | some form =>
      let action := chooseAction args.action form.action args.login_page
      let method := lowerStr (form.method.getD "post")
      let payload := buildPayload form args.username args.password
      let req := if method = "post" then Request.post action payload
                 else Request.get action payload
      match env.submit with
      | Except.error e =>
        { stdout := [], stderr := ["ERROR: Login submission failed: " ++ e],
          exitCode := 4, requests := [req] }
      | Except.ok resp =>
        if env.cookies ≠ [] then
          { stdout := ["OK cookie=" ++ cookieStr env.cookies], stderr := [],
            exitCode := 0, requests := [req] }
        else if strContains (lowerStr resp.text) "logout"
             || strContains (lowerStr resp.text) "dashboard" then
          { stdout := ["OK cookie="], stderr := [], exitCode := 0, requests := [req] }
        else
          { stdout := [], stderr := ["ERROR: Login likely failed"],
            exitCode := 5, requests := [req] }

/-! Concrete fixtures used to instantiate the theorems below. -/

/-- A typical login form: hidden CSRF token, empty username and password
fields, a submit button. -/
def exForm1 : Form :=
  { action := some "/login", method := none,
    inputs := [ { name := some "_csrf", value := some "tok123", type := some "hidden" },
                { name := some "username", value := some "", type := some "text" },
                { name := some "password", value := some "", type := some "password" },
                { name := some "submit", value := some "Log in", type := some "submit" } ] }

/-- A form whose first text-type input is itself the CSRF field. -/
def exFormCsrf : Form :=
  { action := none, method := none,
    inputs := [ { name := some "csrf", value := some "tok", type := some "text" },
                { name := some "pwd", value := none, type := some "password" } ] }

/-- A form whose first text-type and first password-type inputs both lack a
`name` attribute. -/
def exFormNoName : Form :=
  { action := none, method := none,
    inputs := [ { name := none, value := none, type := some "text" },
                { name := none, value := none, type := some "password" } ] }

/-- A form with two inputs sharing a name, one nameless input and one input
whose `name` attribute is empty. -/
def exFormDup : Form :=
  { action := none, method := none,
    inputs := [ { name := some "field", value := some "v1", type := some "text" },
                { name := some "field", value := some "v2", type := some "hidden" },
                { name := none, value := some "ghost", type := none },
                { name := some "", value := some "anon", type := none } ] }

/-- A form declaring `method="GET"`. -/
def exFormGet : Form :=
  { action := some "/search", method := some "GET",
    inputs := [ { name := some "username", value := some "", type := some "text" } ] }

/-- A form whose `action` attribute is present but empty. -/
def exFormEmptyAction : Form :=
  { action := some "", method := none, inputs := [] }

/-- The standard argument vector of the examples. -/
def exArgs1 : Args :=
  { login_page := "http://site/login", username := "alice", password := "s3cret",
    action := none }

/-- A run that fetches `exForm1`, submits successfully and ends with one
session cookie. -/
def exEnv1 : Env :=
  { fetch := Except.ok { forms := [exForm1] },
    submit := Except.ok { text := "Welcome to your Dashboard!" },
    cookies := [("sessionid", "abc123")] }

/-- A run whose submission response has no cookies but a body containing
the marker text. -/
def exEnvBody : Env :=
  { fetch := Except.ok { forms := [exForm1] },
    submit := Except.ok { text := "Welcome to your Dashboard!" },
    cookies := [] }

/-- A run whose submission response has neither cookies nor marker text. -/
def exEnvFail : Env :=
  { fetch := Except.ok { forms := [exForm1] },
    submit := Except.ok { text := "Invalid credentials" },
    cookies := [] }

/-- A run whose fetch fails with a transport error. -/
def exEnvFetchFail : Env :=
  { fetch := Except.error "connection refused",
    submit := Except.ok { text := "" }, cookies := [] }

/-- A run whose fetched page has no form. -/
def exEnvNoForm : Env :=
  { fetch := Except.ok { forms := [] },
    submit := Except.ok { text := "" }, cookies := [] }

/-- A run that fetches the `method="GET"` form. -/
def exEnvGet : Env :=
  { fetch := Except.ok { forms := [exFormGet] },
    submit := Except.ok { text := "" }, cookies := [] }

/-- A run that fetches the empty-`action` form. -/
def exEnvEmptyAction : Env :=
  { fetch := Except.ok { forms := [exFormEmptyAction] },
    submit := Except.ok { text := "" }, cookies := [] }

/-- The URL a submission request goes to. -/
def requestUrl : Request → String
  | Request.post u _ => u
  | Request.get u _ => u

/-- The field mapping a submission request carries. -/
def requestData : Request → Dict
  | Request.post _ d => d
  | Request.get _ d => d

/-! Basic facts about the dictionary model. -/

theorem dictGet_dictInsert_self (d : Dict) (k : Option String) (v : String) :
    dictGet (dictInsert d k v) k = some v := by
  induction d with
  | nil => simp [dictInsert, dictGet]
  | cons p d ih =>
    by_cases h : p.1 = k
    · simp [dictInsert, dictGet, h]
    · simp [dictInsert, dictGet, h, ih]

theorem dictGet_dictInsert_ne (d : Dict) (k k' : Option String) (v : String)
    (h : k' ≠ k) : dictGet (dictInsert d k v) k' = dictGet d k' := by
  have h' : ¬k = k' := fun hh => h hh.symm
  induction d with
  | nil => simp [dictInsert, dictGet, h']
  | cons p d ih =>
    by_cases hp : p.1 = k
    · simp [dictInsert, dictGet, hp, h']
    · by_cases hp' : p.1 = k'
      · simp [dictInsert, dictGet, hp, hp', h', h]
      · simp [dictInsert, dictGet, hp, hp', ih]

theorem dictHas_dictInsert (d : Dict) (k k' : Option String) (v : String) :
    dictHas (dictInsert d k v) k' = true ↔ (k = k' ∨ dictHas d k' = true) := by
  induction d with
  | nil => simp [dictInsert, dictHas]
  | cons p d ih =>
    by_cases hp : p.1 = k
    · by_cases hk : k = k' <;> simp [dictInsert, dictHas, hp, hk]
    · by_cases hp' : p.1 = k'
      · have hk : ¬k' = k := fun hh => hp (by rw [hp', hh])
        simp [dictInsert, dictHas, hp, hp', hk]
      · simp [dictInsert, dictHas, hp, hp', ih]

theorem dictHas_of_dictGet (d : Dict) (k : Option String) (v : String)
    (h : dictGet d k = some v) : dictHas d k = true := by
  induction d with
  | nil => simp [dictGet] at h
  | cons p d ih =>
    by_cases hp : p.1 = k
    · simp [dictHas, hp]
    · simp [dictGet, hp] at h
      simp [dictHas, hp, ih h]

theorem dictHas_mono_insert (d : Dict) (k k' : Option String) (v : String)
    (h : dictHas d k' = true) : dictHas (dictInsert d k v) k' = true :=
  (dictHas_dictInsert d k k' v).mpr (Or.inr h)

/-! Facts about the injection stages. -/

theorem injectFirst_of_none (d : Dict) (cands : List String) (v : String)
    (h : cands.find? (fun k => dictHas d (some k)) = none) :
    injectFirst d cands v = d := by
  simp [injectFirst, h]

theorem injectFirst_spec (d : Dict) (cands : List String) (v : String)
    (h : cands.any (fun k => dictHas d (some k)) = true) :
    ∃ k, k ∈ cands ∧ dictHas d (some k) = true ∧
      injectFirst d cands v = dictInsert d (some k) v := by
  rcases hfind : cands.find? (fun k => dictHas d (some k)) with _ | k
  · rw [List.find?_eq_none] at hfind
    rw [List.any_eq_true] at h
    rcases h with ⟨k, hk, hd⟩
    exact absurd hd (by simpa using hfind k hk)
  · refine ⟨k, List.mem_of_find?_eq_some hfind, by simpa using List.find?_some hfind, ?_⟩
    simp [injectFirst, hfind]

theorem any_dictHas_mono (cands : List String) (d : Dict) (k : Option String) (v : String)
    (h : cands.any (fun c => dictHas d (some c)) = true) :
    cands.any (fun c => dictHas (dictInsert d k v) (some c)) = true := by
  rw [List.any_eq_true] at h ⊢
  rcases h with ⟨c, hc, hd⟩
  exact ⟨c, hc, by simpa using dictHas_mono_insert d k (some c) v (by simpa using hd)⟩

theorem userFallback_skip (form : Form) (d : Dict) (u : String)
    (h : common_user_fields.any (fun k => dictHas d (some k)) = true) :
    userFallback form d u = d := by
  simp [userFallback, h]

theorem passFallback_skip (form : Form) (d : Dict) (p : String)
    (h : common_pass_fields.any (fun k => dictHas d (some k)) = true) :
    passFallback form d p = d := by
  simp [passFallback, h]

/-- With both requests of a run available, the submission request is issued
exactly once, with the chosen action, method and payload; this holds
whether the submission succeeds or fails, and whatever the classifier
decides. -/
theorem runProgram_requests_eq (args : Args) (env : Env) (page : Page) (form : Form)
    (hf : env.fetch = Except.ok page) (hform : page.forms.head? = some form) :
    (runProgram args env).requests =
      [if lowerStr (form.method.getD "post") = "post"
       then Request.post (chooseAction args.action form.action args.login_page)
              (buildPayload form args.username args.password)
       else Request.get (chooseAction args.action form.action args.login_page)
              (buildPayload form args.username args.password)] := by
  simp only [runProgram, hf, hform]
  rcases env.submit with e | r
  · rfl
  · by_cases hc : env.cookies = []
    · simp only [hc]
      simp only [ne_eq, not_true_eq_false, if_false, reduceIte]
      split <;> rfl
    · simp [hc]

/-- When the built mapping has keys `username` and `password`, the payload
is exactly the built mapping with those two entries overwritten. -/
theorem buildPayload_user_pass (form : Form) (u pw : String) (vU vP : String)
    (hU : dictGet (buildInputs form) (some "username") = some vU)
    (hP : dictGet (buildInputs form) (some "password") = some vP) :
    buildPayload form u pw =
      dictInsert (dictInsert (buildInputs form) (some "username") u) (some "password") pw := by
  have hHasU : dictHas (buildInputs form) (some "username") = true :=
    dictHas_of_dictGet _ _ _ hU
  have h1 : injectFirst (buildInputs form) common_user_fields u
      = dictInsert (buildInputs form) (some "username") u := by
    simp [injectFirst, common_user_fields, List.find?, hHasU]
  have hGetP1 : dictGet (dictInsert (buildInputs form) (some "username") u) (some "password")
      = some vP := by
    rw [dictGet_dictInsert_ne _ _ _ _ (by decide)]; exact hP
  have hHasP1 : dictHas (dictInsert (buildInputs form) (some "username") u) (some "password")
      = true := dictHas_of_dictGet _ _ _ hGetP1
  have h2 : injectFirst (dictInsert (buildInputs form) (some "username") u)
      common_pass_fields pw
      = dictInsert (dictInsert (buildInputs form) (some "username") u) (some "password") pw := by
    simp [injectFirst, common_pass_fields, List.find?, hHasP1]
  have hHasU2 : dictHas (dictInsert (dictInsert (buildInputs form) (some "username") u)
      (some "password") pw) (some "username") = true :=
    dictHas_mono_insert _ _ _ _ (dictHas_mono_insert _ _ _ _ hHasU)
  have hHasP2 : dictHas (dictInsert (dictInsert (buildInputs form) (some "username") u)
      (some "password") pw) (some "password") = true :=
    dictHas_of_dictGet _ _ pw (dictGet_dictInsert_self _ _ _)
  have hAnyU : common_user_fields.any (fun k =>
      dictHas (dictInsert (dictInsert (buildInputs form) (some "username") u)
        (some "password") pw) (some k)) = true := by
    simp only [common_user_fields, List.any_cons]
    rw [hHasU2]; rfl
  have hAnyP : common_pass_fields.any (fun k =>
      dictHas (dictInsert (dictInsert (buildInputs form) (some "username") u)
        (some "password") pw) (some k)) = true := by
    simp only [common_pass_fields, List.any_cons]
    rw [hHasP2]; simp
  rw [buildPayload, h1, h2, userFallback_skip _ _ _ hAnyU, passFallback_skip _ _ _ hAnyP]

/-- C1: for every fetched page whose first form yields a field mapping with
`username` and `password` keys defaulting to the empty string, the payload
the Submitter sends maps `username` to the supplied username argument and
`password` to the supplied password argument, and every other key keeps the
default it was given when the mapping was built from the form. -/
theorem payload_injects_credentials_preserves_defaults
    (args : Args) (env : Env) (page : Page) (form : Form)
    (hf : env.fetch = Except.ok page)
    (hform : page.forms.head? = some form)
    (hU : dictGet (buildInputs form) (some "username") = some "")
    (hP : dictGet (buildInputs form) (some "password") = some "") :
    (runProgram args env).requests.map requestData
      = [buildPayload form args.username args.password] ∧
    dictGet (buildPayload form args.username args.password) (some "username")
      = some args.username ∧
    dictGet (buildPayload form args.username args.password) (some "password")
      = some args.password ∧
    ∀ k : Option String, k ≠ some "username" → k ≠ some "password" →
      dictGet (buildPayload form args.username args.password) k
        = dictGet (buildInputs form) k := by
  have hbp := buildPayload_user_pass form args.username args.password "" "" hU hP
  refine ⟨?_, ?_, ?_, ?_⟩
  · rw [runProgram_requests_eq args env page form hf hform]
    split <;> rfl
  · rw [hbp, dictGet_dictInsert_ne _ _ _ _ (by decide), dictGet_dictInsert_self]
  · rw [hbp, dictGet_dictInsert_self]
  · intro k hk1 hk2
    rw [hbp, dictGet_dictInsert_ne _ _ _ _ hk2, dictGet_dictInsert_ne _ _ _ _ hk1]

/-- Witness for C1 at the concrete fixture: the credentials are injected
and the CSRF default and submit-button default are preserved. -/
theorem payload_injects_credentials_preserves_defaults_witness :
    (runProgram exArgs1 exEnv1).requests.map requestData
      = [buildPayload exForm1 "alice" "s3cret"] ∧
    dictGet (buildPayload exForm1 "alice" "s3cret") (some "username") = some "alice" ∧
    dictGet (buildPayload exForm1 "alice" "s3cret") (some "password") = some "s3cret" ∧
    dictGet (buildPayload exForm1 "alice" "s3cret") (some "_csrf")
      = dictGet (buildInputs exForm1) (some "_csrf") := by
  have h := payload_injects_credentials_preserves_defaults exArgs1 exEnv1
    { forms := [exForm1] } exForm1 rfl rfl (by decide) (by decide)
  exact ⟨h.1, h.2.1, h.2.2.1, h.2.2.2 (some "_csrf") (by decide) (by decide)⟩

/-- C5: if the fetch of the login page raises a transport error, the run
prints an error to standard error, exits with code 2, and issues no
submission request at all. -/
theorem fetch_error_exits_2_no_submission (args : Args) (env : Env) (e : String)
    (h : env.fetch = Except.error e) :
    (runProgram args env).stderr = ["ERROR: Failed to fetch login page: " ++ e] ∧
    (runProgram args env).exitCode = 2 ∧
    (runProgram args env).stdout = [] ∧
    (runProgram args env).requests = [] := by
  simp [runProgram, h]

/-- Witness for C5 at a concrete failing fetch. -/
theorem fetch_error_exits_2_no_submission_witness :
    (runProgram exArgs1 exEnvFetchFail).stderr
      = ["ERROR: Failed to fetch login page: connection refused"] ∧
    (runProgram exArgs1 exEnvFetchFail).exitCode = 2 ∧
    (runProgram exArgs1 exEnvFetchFail).stdout = [] ∧
    (runProgram exArgs1 exEnvFetchFail).requests = [] :=
  fetch_error_exits_2_no_submission exArgs1 exEnvFetchFail "connection refused" rfl

/-- C6: if the fetched page contains no form element, the run exits with
code 3, prints one line to standard error, and emits no standard-output
line beginning with `OK`. -/
theorem no_form_exits_3 (args : Args) (env : Env) (page : Page)
    (hf : env.fetch = Except.ok page) (hforms : page.forms = []) :
    (runProgram args env).exitCode = 3 ∧
    (runProgram args env).stderr = ["ERROR: No form found on login page"] ∧
    (runProgram args env).stdout = [] ∧
    (runProgram args env).stdout.all
      (fun l => !listLeadsWith "OK".data l.data) = true := by
  simp [runProgram, hf, hforms]

/-- Witness for C6 at a concrete form-free page. -/
theorem no_form_exits_3_witness :
    (runProgram exArgs1 exEnvNoForm).exitCode = 3 ∧
    (runProgram exArgs1 exEnvNoForm).stderr = ["ERROR: No form found on login page"] ∧
    (runProgram exArgs1 exEnvNoForm).stdout = [] ∧
    (runProgram exArgs1 exEnvNoForm).stdout.all
      (fun l => !listLeadsWith "OK".data l.data) = true :=
  no_form_exits_3 exArgs1 exEnvNoForm { forms := [] } rfl rfl

/-- C10: the CSRF candidate scan has no observable effect — with it
removed, every run produces the identical outcome (same payload requests,
same standard output and error, same exit code). -/
theorem csrf_scan_has_no_observable_effect :
    ∀ (args : Args) (env : Env), runProgram args env = runProgramNoCsrf args env :=
  fun _ _ => rfl

/-- C7: the submission method is the form's `method` attribute lower-cased,
`post` when absent; a `post` method sends the field mapping as request body
data, any other method (for instance a form declaring `method="GET"`)
issues a GET carrying the field mapping as query parameters. -/
theorem submission_method_selects_encoding
    (args : Args) (env : Env) (page : Page) (form : Form)
    (hf : env.fetch = Except.ok page)
    (hform : page.forms.head? = some form) :
    (lowerStr (form.method.getD "post") = "post" →
      (runProgram args env).requests
        = [Request.post (chooseAction args.action form.action args.login_page)
            (buildPayload form args.username args.password)]) ∧
    (lowerStr (form.method.getD "post") ≠ "post" →
      (runProgram args env).requests
        = [Request.get (chooseAction args.action form.action args.login_page)
            (buildPayload form args.username args.password)]) ∧
    (form.method = some "GET" →
      (runProgram args env).requests
        = [Request.get (chooseAction args.action form.action args.login_page)
            (buildPayload form args.username args.password)]) := by
  rw [runProgram_requests_eq args env page form hf hform]
  refine ⟨fun h => by rw [if_pos h], fun h => by rw [if_neg h], fun h => ?_⟩
  rw [h]
  rw [if_neg (by decide)]

/-- Witness for C7: the `method="GET"` fixture submits a GET request with
the field mapping as parameters. -/
theorem submission_method_selects_encoding_witness :
    (runProgram exArgs1 exEnvGet).requests
      = [Request.get "/search" [(some "username", "alice")]] := by
  have h := (submission_method_selects_encoding exArgs1 exEnvGet
    { forms := [exFormGet] } exFormGet rfl rfl).2.2 rfl
  rw [h]
  decide

/-- C4: the result classifier decides in fixed order — cookies present
prints exactly the serialized cookie line and exits 0 (for the single
cookie `sessionid=abc123` the line is exactly `OK cookie=sessionid=abc123`);
otherwise a body containing `logout` or `dashboard` case-insensitively
prints exactly `OK cookie=` and exits 0; otherwise the run prints an error
to standard error and exits 5. -/
theorem result_classifier_fixed_order
    (args : Args) (env : Env) (page : Page) (form : Form) (resp : HttpResponse)
    (hf : env.fetch = Except.ok page)
    (hform : page.forms.head? = some form)
    (hs : env.submit = Except.ok resp) :
    (env.cookies ≠ [] →
      (runProgram args env).stdout = ["OK cookie=" ++ cookieStr env.cookies] ∧
      (runProgram args env).stderr = [] ∧
      (runProgram args env).exitCode = 0) ∧
    (env.cookies = [("sessionid", "abc123")] →
      (runProgram args env).stdout = ["OK cookie=sessionid=abc123"] ∧
      (runProgram args env).exitCode = 0) ∧
    (env.cookies = [] →
      (strContains (lowerStr resp.text) "logout"
        || strContains (lowerStr resp.text) "dashboard") = true →
      (runProgram args env).stdout = ["OK cookie="] ∧
      (runProgram args env).stderr = [] ∧
      (runProgram args env).exitCode = 0) ∧
    (env.cookies = [] →
      (strContains (lowerStr resp.text) "logout"
        || strContains (lowerStr resp.text) "dashboard") = false →
      (runProgram args env).stdout = [] ∧
      (runProgram args env).stderr = ["ERROR: Login likely failed"] ∧
      (runProgram args env).exitCode = 5) := by
  refine ⟨fun hc => ?_, fun hc => ?_, fun hc hm => ?_, fun hc hm => ?_⟩
  · simp [runProgram, hf, hform, hs, hc]
  · simp [runProgram, hf, hform, hs, hc, cookieStr]
    decide
  · simp only [runProgram, hf, hform, hs, hc]
    simp [hm]
  · simp only [runProgram, hf, hform, hs, hc]
    simp [hm]

/-- Witness for C4 at a run setting the single cookie `sessionid=abc123`. -/
theorem result_classifier_fixed_order_witness :
    (runProgram exArgs1 exEnv1).stdout = ["OK cookie=sessionid=abc123"] ∧
    (runProgram exArgs1 exEnv1).exitCode = 0 :=
  (result_classifier_fixed_order exArgs1 exEnv1 { forms := [exForm1] } exForm1
    { text := "Welcome to your Dashboard!" } rfl rfl rfl).2.1 rfl

/-- An injection loop whose candidate names all differ from key `k` leaves
the value at `k` alone. -/
theorem injectFirst_get_ne (d : Dict) (cands : List String) (v : String)
    (k : Option String) (h : ∀ c ∈ cands, (some c : Option String) ≠ k) :
    dictGet (injectFirst d cands v) k = dictGet d k := by
  rcases hfind : cands.find? (fun c => dictHas d (some c)) with _ | c
  · rw [injectFirst_of_none d cands v hfind]
  · have hmem := List.mem_of_find?_eq_some hfind
    rw [injectFirst, hfind]
    exact dictGet_dictInsert_ne d (some c) k v (fun hh => h c hmem hh.symm)

/-- The presence of a candidate key survives an injection loop. -/
theorem any_dictHas_injectFirst (cands₂ : List String) (d : Dict)
    (cands : List String) (v : String)
    (h : cands₂.any (fun c => dictHas d (some c)) = true) :
    cands₂.any (fun c => dictHas (injectFirst d cands v) (some c)) = true := by
  rcases hfind : cands.find? (fun c => dictHas d (some c)) with _ | c
  · rw [injectFirst_of_none d cands v hfind]; exact h
  · rw [injectFirst, hfind]
    exact any_dictHas_mono cands₂ d (some c) v h

/-- C2 counterexample: the claim fails as stated.  In `exFormCsrf` the
first CSRF candidate `csrf` is a key of the mapping with default `tok`,
yet the type-based fallback overwrites it with the supplied username,
because the first text-type input is the CSRF field itself and no username
candidate is present. -/
theorem csrf_default_overwritten_by_fallback :
    detect_csrf (buildInputs exFormCsrf) = some "csrf" ∧
    dictGet (buildInputs exFormCsrf) (some "csrf") = some "tok" ∧
    dictGet (buildPayload exFormCsrf "alice" "s3cret") (some "csrf") = some "alice" ∧
    ("alice" : String) ≠ "tok" := by decide

/-- C2 amended: the detected CSRF key is never overwritten by the
named-candidate injection loops (their candidate lists are disjoint from
the CSRF candidates); it can be overwritten by the type-based fallback,
but is submitted unchanged whenever some username candidate and some
password candidate are present in the mapping, since then neither fallback
fires. -/
theorem csrf_default_preserved_amended (form : Form) (u pw k : String)
    (hdet : detect_csrf (buildInputs form) = some k) :
    dictGet (injectFirst (injectFirst (buildInputs form) common_user_fields u)
        common_pass_fields pw) (some k)
      = dictGet (buildInputs form) (some k) ∧
    (common_user_fields.any (fun c => dictHas (buildInputs form) (some c)) = true →
     common_pass_fields.any (fun c => dictHas (buildInputs form) (some c)) = true →
     dictGet (buildPayload form u pw) (some k) = dictGet (buildInputs form) (some k)) := by
  have hk : k ∈ csrf_name_candidates := List.mem_of_find?_eq_some hdet
  have hUdisj : ∀ a ∈ common_user_fields, ∀ b ∈ csrf_name_candidates, a ≠ b := by decide
  have hPdisj : ∀ a ∈ common_pass_fields, ∀ b ∈ csrf_name_candidates, a ≠ b := by decide
  have hdisU : ∀ c ∈ common_user_fields, (some c : Option String) ≠ some k := by
    intro c hc heq
    exact hUdisj c hc k hk (by injection heq)
  have hdisP : ∀ c ∈ common_pass_fields, (some c : Option String) ≠ some k := by
    intro c hc heq
    exact hPdisj c hc k hk (by injection heq)
  have hnamed : dictGet (injectFirst (injectFirst (buildInputs form) common_user_fields u)
      common_pass_fields pw) (some k) = dictGet (buildInputs form) (some k) := by
    rw [injectFirst_get_ne _ _ _ _ hdisP, injectFirst_get_ne _ _ _ _ hdisU]
  refine ⟨hnamed, fun hU hP => ?_⟩
  have hU2 : common_user_fields.any (fun c =>
      dictHas (injectFirst (injectFirst (buildInputs form) common_user_fields u)
        common_pass_fields pw) (some c)) = true :=
    any_dictHas_injectFirst _ _ _ _ (any_dictHas_injectFirst _ _ _ _ hU)
  have hP2 : common_pass_fields.any (fun c =>
      dictHas (injectFirst (injectFirst (buildInputs form) common_user_fields u)
        common_pass_fields pw) (some c)) = true :=
    any_dictHas_injectFirst _ _ _ _ (any_dictHas_injectFirst _ _ _ _ hP)
  rw [buildPayload, passFallback_skip _ _ _ (by rw [userFallback_skip _ _ _ hU2]; exact hP2),
    userFallback_skip _ _ _ hU2]
  exact hnamed

/-- Witness for the amended C2 at the concrete fixture: the `_csrf` default
`tok123` is submitted unchanged. -/
theorem csrf_default_preserved_amended_witness :
    dictGet (buildPayload exForm1 "alice" "s3cret") (some "_csrf") = some "tok123" := by
  have h := (csrf_default_preserved_amended exForm1 "alice" "s3cret" "_csrf"
    (by decide)).2 (by decide) (by decide)
  rw [h]
  decide

/-- C3 counterexample: the claim fails as stated.  In `exFormNoName` no
username candidate matches and the first text-type input lacks a `name`
attribute, yet the fallback is not a no-op: `inputs[name] = args.username`
runs with `name` equal to the Python value `None`, so the mapping gains an
entry under the null key (then overwritten by the symmetric password
fallback). -/
theorem fallback_without_name_changes_mapping :
    buildInputs exFormNoName = [] ∧
    buildPayload exFormNoName "alice" "s3cret" = [(none, "s3cret")] ∧
    buildPayload exFormNoName "alice" "s3cret" ≠ buildInputs exFormNoName := by decide

/-- C3 amended: when no username candidate is present and the first
text-type input lacks a `name` attribute, the fallback does not leave the
mapping unchanged — it inserts the supplied username under the null key
(the Python `None`), signalling no error; symmetrically, the password
fallback inserts the supplied password under the null key. -/
theorem fallback_without_name_inserts_null_key
    (form : Form) (d : Dict) (u pw : String) (i j : Input)
    (hti : (form.inputs.filter (fun x => x.type = some "text")).head? = some i)
    (hni : i.name = none)
    (hU : common_user_fields.any (fun c => dictHas d (some c)) = false)
    (htj : (form.inputs.filter (fun x => x.type = some "password")).head? = some j)
    (hnj : j.name = none)
    (hP : common_pass_fields.any (fun c => dictHas d (some c)) = false)
    (hd : dictGet d none = none) :
    userFallback form d u = dictInsert d none u ∧
    dictGet (userFallback form d u) none = some u ∧
    userFallback form d u ≠ d ∧
    passFallback form d pw = dictInsert d none pw ∧
    dictGet (passFallback form d pw) none = some pw ∧
    passFallback form d pw ≠ d := by
  have hu : userFallback form d u = dictInsert d none u := by
    rw [userFallback, if_neg (by simp [hU]), hti]
    show dictInsert d i.name u = dictInsert d none u
    rw [hni]
  have hp : passFallback form d pw = dictInsert d none pw := by
    rw [passFallback, if_neg (by simp [hP]), htj]
    show dictInsert d j.name pw = dictInsert d none pw
    rw [hnj]
  have hgu : dictGet (userFallback form d u) none = some u := by
    rw [hu, dictGet_dictInsert_self]
  have hgp : dictGet (passFallback form d pw) none = some pw := by
    rw [hp, dictGet_dictInsert_self]
  refine ⟨hu, hgu, fun heq => ?_, hp, hgp, fun heq => ?_⟩
  · rw [heq, hd] at hgu
    exact Option.noConfusion hgu
  · rw [heq, hd] at hgp
    exact Option.noConfusion hgp

/-- Witness for the amended C3 at the concrete name-less fixture. -/
theorem fallback_without_name_inserts_null_key_witness :
    userFallback exFormNoName [] "alice" = [(none, "alice")] ∧
    passFallback exFormNoName [] "s3cret" = [(none, "s3cret")] := by
  have h := fallback_without_name_inserts_null_key exFormNoName [] "alice" "s3cret"
    { name := none, value := none, type := some "text" }
    { name := none, value := none, type := some "password" }
    (by decide) rfl (by decide) (by decide) rfl (by decide) rfl
  exact ⟨h.1, h.2.2.2.1⟩

/-- C9 counterexample: the claim fails as stated.  With no `--action`
override and a form whose `action` attribute is present but empty, the
claimed precedence picks the attribute (the empty string), but the code —
Python `or` on truthiness — skips the empty attribute and submits to the
original login page URL. -/
theorem action_empty_attribute_not_chosen :
    exFormEmptyAction.action = some "" ∧
    chooseAction none (some "") "http://site/login" = "http://site/login" ∧
    chooseActionSpec none (some "") "http://site/login" = "" ∧
    ("http://site/login" : String) ≠ "" ∧
    (runProgram exArgs1 exEnvEmptyAction).requests.map requestUrl
      = ["http://site/login"] := by decide

/-- C9 amended: the submission target is chosen by fixed precedence over
*truthy* values — the `--action` override when supplied and non-empty,
otherwise the form's `action` attribute when present and non-empty,
otherwise the original login page URL; an empty override or attribute
falls through like an absent one. -/
theorem action_precedence_truthy
    (args : Args) (env : Env) (page : Page) (form : Form)
    (hf : env.fetch = Except.ok page)
    (hform : page.forms.head? = some form) :
    (runProgram args env).requests.map requestUrl
      = [chooseAction args.action form.action args.login_page] ∧
    (∀ s, args.action = some s → s ≠ "" →
      chooseAction args.action form.action args.login_page = s) ∧
    ((args.action = none ∨ args.action = some "") →
      ∀ t, form.action = some t → t ≠ "" →
        chooseAction args.action form.action args.login_page = t) ∧
    ((args.action = none ∨ args.action = some "") →
      (form.action = none ∨ form.action = some "") →
      chooseAction args.action form.action args.login_page = args.login_page) := by
  refine ⟨?_, ?_, ?_, ?_⟩
  · rw [runProgram_requests_eq args env page form hf hform]
    split <;> rfl
  · intro s hs hne
    rw [hs]
    simp [chooseAction, hne]
  · rintro (ha | ha) t ht hne <;> rw [ha, ht] <;> simp [chooseAction, hne]
  · rintro (ha | ha) (hb | hb) <;> rw [ha, hb] <;> simp [chooseAction]

/-- Witness for the amended C9 at the empty-`action` fixture: the request
goes to the original login page URL. -/
theorem action_precedence_truthy_witness :
    (runProgram exArgs1 exEnvEmptyAction).requests.map requestUrl
      = [chooseAction exArgs1.action exFormEmptyAction.action exArgs1.login_page] ∧
    chooseAction exArgs1.action exFormEmptyAction.action exArgs1.login_page
      = "http://site/login" := by
  have h := action_precedence_truthy exArgs1 exEnvEmptyAction
    { forms := [exFormEmptyAction] } exFormEmptyAction rfl rfl
  exact ⟨h.1, h.2.2.2 (Or.inl rfl) (Or.inr rfl)⟩

/-- Lookup in the mapping-construction fold: the value found is that of the
last input (in document order) carrying the looked-up non-empty name, or
whatever the accumulator already held. -/
theorem buildInputs_fold_get (l : List Input) (d : Dict) (k : String) (hk : k ≠ "") :
    dictGet (l.foldl (fun d inp =>
        match inp.name with
        | none => d
        | some n => if n = "" then d else dictInsert d (some n) (inp.value.getD "")) d)
      (some k)
      = match l.reverse.find? (fun i => i.name = some k) with
        | some i => some (i.value.getD "")
        | none => dictGet d (some k) := by
  induction l generalizing d with
  | nil => simp
  | cons i l ih =>
    rw [List.foldl_cons, ih]
    rw [List.reverse_cons, List.find?_append]
    rcases hfind : l.reverse.find? (fun i => i.name = some k) with _ | j
    · rcases hn : i.name with _ | n
      · simp [hfind, hn]
      · by_cases hn' : n = ""
        · have hkne : ¬"" = k := fun h => hk h.symm
          simp [hfind, hn, hn', hkne]
        · by_cases hnk : n = k
          · subst hnk
            simp [hfind, hn, hn', dictGet_dictInsert_self]
          · have hpi : ¬i.name = some k := by
              rw [hn]; exact fun h => hnk (Option.some.inj h)
            have hknn : (some k : Option String) ≠ some n :=
              fun h => hnk (Option.some.inj h).symm
            simp [hfind, hn, hn', hpi, hnk,
              dictGet_dictInsert_ne d (some n) (some k) (i.value.getD "") hknn]
    · simp [hfind]

/-- In the mapping-construction fold, keys that are the Python `None` or
the empty string are never created. -/
theorem buildInputs_fold_nokey (l : List Input) (d : Dict) (k : Option String)
    (hk : k = none ∨ k = some "") (hd : dictGet d k = none) :
    dictGet (l.foldl (fun d inp =>
        match inp.name with
        | none => d
        | some n => if n = "" then d else dictInsert d (some n) (inp.value.getD "")) d)
      k = none := by
  induction l generalizing d with
  | nil => exact hd
  | cons i l ih =>
    rw [List.foldl_cons]
    refine ih _ ?_
    rcases hn : i.name with _ | n
    · simp only [hn]
      exact hd
    · by_cases hn' : n = ""
      · simp only [hn]
        rw [if_pos hn']
        exact hd
      · have hne : k ≠ some n := by
          rcases hk with hk | hk <;> rw [hk]
          · exact fun h => Option.noConfusion h
          · exact fun h => hn' (Option.some.inj h).symm
        simp only [hn]
        rw [if_neg hn', dictGet_dictInsert_ne d (some n) k (i.value.getD "") hne]
        exact hd

/-- C8: the field mapping maps every input carrying a non-empty `name` to
its declared `value` (empty string when absent), skips inputs without a
name entirely (no `None` key and no empty-string key is ever created), and
when several inputs share a name the last one in document order wins. -/
theorem field_mapping_from_inputs (form : Form) :
    dictGet (buildInputs form) none = none ∧
    dictGet (buildInputs form) (some "") = none ∧
    ∀ k : String, k ≠ "" →
      dictGet (buildInputs form) (some k)
        = (form.inputs.reverse.find? (fun i => i.name = some k)).map
            (fun i => i.value.getD "") := by
  refine ⟨buildInputs_fold_nokey _ _ _ (Or.inl rfl) rfl,
          buildInputs_fold_nokey _ _ _ (Or.inr rfl) rfl, fun k hk => ?_⟩
  rw [buildInputs, buildInputs_fold_get form.inputs [] k hk]
  rcases h : form.inputs.reverse.find? (fun i => i.name = some k) with _ | i <;>
    simp [h, dictGet]

/-- Witness for C8 at the duplicate-name fixture: the later `field` input
wins, and neither the nameless input nor the empty-named input creates a
key. -/
theorem field_mapping_from_inputs_witness :
    dictGet (buildInputs exFormDup) (some "field") = some "v2" ∧
    dictGet (buildInputs exFormDup) none = none ∧
    dictGet (buildInputs exFormDup) (some "") = none := by
  have h := field_mapping_from_inputs exFormDup
  refine ⟨?_, h.1, h.2.1⟩
  rw [h.2.2 "field" (by decide)]
  decide

end MultiLogin
